import Mathlib

/-!
Shallow embedding of `djangobot/slack.py` (class `SlackAPI`) and proofs of
the specification's claims about it.

The network is modelled as a pure oracle `net : Request → Json` giving the
parsed (`.json()`) body of the response to each outgoing HTTP request.  Every
operation returns the list of requests it issued (in order) together with an
`Except`-value: `.ok` for a normal return, `.error` for a raised exception.
Python dictionaries are association lists; Python truthiness is `truthy`.
-/

namespace Djangobot

/-- Parsed JSON values, as returned by `response.json()`.  Python `None` is
`Json.null`; numbers are collapsed to `Int` (no claim involves arithmetic on
response numbers). -/
inductive Json where
  | null
  | bool (b : Bool)
  | num (n : Int)
  | str (s : String)
  | arr (elems : List Json)
  | obj (kvs : List (String × Json))

/-- Python dictionaries with string keys, e.g. keyword params and responses. -/
abbrev Dict := List (String × Json)

/-- Python truthiness (`bool(v)`) of a parsed JSON value: `None`, `False`,
`0`, `""`, `[]` and `{}` are falsy, everything else truthy. -/
def truthy : Json → Bool
  | .null => false
  | .bool b => b
  | .num n => n != 0
  | .str s => s != ""
  | .arr elems => !elems.isEmpty
  | .obj kvs => !kvs.isEmpty

/-- Association-list lookup of a string key (Python dict lookup). -/
def dictGet (kvs : Dict) (k : String) : Option Json :=
  match kvs with
  | [] => none
  | (k', v) :: rest => if k' = k then some v else dictGet rest k

/-- Python `d[k] = v`: overwrite the value at an existing key in place,
else append a new key-value pair (insertion order is preserved). -/
def dictSet (d : Dict) (k : String) (v : Json) : Dict :=
  match d with
  | [] => [(k, v)]
  | (k', v') :: rest =>
      if k' = k then (k, v) :: rest else (k', v') :: dictSet rest k v

/-- Exceptions raised by the code, one constructor per `raise` site (plus the
built-in errors subscription can raise).  The spec's error taxonomy maps onto
these: `ConfigurationError` (slack.py line 30), `AuthenticationError`
(line 35, carries the response), `APIError` (line 93, carries URL and
response), `NotFoundError` (lines 145/153/161, carries the lookup key). -/
inductive Err where
  | configurationError
  | authenticationError (response : Json)
  | apiError (url : String) (response : Json)
  | unknownChannelName (name : String)
  | unknownUserId (user_id : String)
  | unknownChannelId (channel_id : String)
  | keyError (key : String)
  | typeError

/-- Evaluation of Python `v[k]` on a parsed response: a `KeyError` when the
key is missing, a `TypeError` when `v` is not a mapping. -/
def pyIndex (v : Json) (k : String) : Except Err Json :=
  match v with
  | .obj kvs =>
      match dictGet kvs k with
      | some x => .ok x
      | none => .error (.keyError k)
  | _ => .error .typeError

/-- Keyword arguments passed to the `requests` call: `_call_api` sends
`{'params': params}` with GET, `_post_api` sends `{'headers': …, 'json': …}`
with POST (`json` may be Python `None`, hence the inner `Option`). -/
inductive RequestKwargs where
  | get (params : Dict)
  | post (headers : List (String × String)) (json : Option Dict)

/-- One outgoing HTTP request, as handed to `requests.<method>(url, **kwargs)`. -/
structure Request where
  url : String
  httpMethod : String
  kwargs : RequestKwargs

/-- URL construction `self.url.format(method=method)` over the class
attribute `url = 'https://slack.com/api/{method}'`: the template's single
placeholder sits at its end, so formatting is appending the method name. -/
def apiUrl (method : String) : String :=
  "https://slack.com/api/" ++ method

/-- Client state: resolved token, the `verify` flag, and the two backing
attributes `_channels` / `_users` (line 38-39 initialise them to `[]`;
`reload_channels` sets `_channels` to `None`). -/
structure SlackAPI where
  token : String
  verify : Bool
  chansAttr : Json
  usersAttr : Json

/-- Method `SlackAPI._api_call` (lines 77-94): build the URL, issue the
request, and if `self.verify` is set raise `APIError` (an `Exception`
carrying the URL and the whole response) whenever `response['ok']` is falsy;
otherwise hand back the raw response unconditionally. -/
def api_call (net : Request → Json) (verify : Bool) (method : String)
    (request_method : String) (request_kwargs : RequestKwargs) :
    List Request × Except Err Json :=
  let url := apiUrl method
  let req : Request := ⟨url, request_method, request_kwargs⟩
  let response := net req
  ([req],
    if verify then
      match pyIndex response "ok" with
      | .error e => .error e
      | .ok okVal =>
          if truthy okVal then .ok response
          else .error (.apiError url response)
    else .ok response)

/-- The GET parameters actually sent by `SlackAPI._call_api` (lines 54-57):
a fresh `{'token': …}` when `params` is absent or falsy (empty), else the
caller's dict with its `'token'` key overwritten. -/
def call_api_params (token : String) (params : Option Dict) : Dict :=
  match params with
  | none => [("token", Json.str token)]
  | some d => if d.isEmpty then [("token", Json.str token)]
              else dictSet d "token" (Json.str token)

/-- Value of the caller's `params` dict after `_call_api` returns: the `else`
branch at line 57 mutates the caller's dict in place (no copy), while the
`if` branch rebinds the local name only, leaving the caller's dict alone. -/
def call_api_caller_dict (token : String) (d : Dict) : Dict :=
  if d.isEmpty then d else dictSet d "token" (Json.str token)

/-- Method `SlackAPI._call_api` (lines 45-58): GET dispatch, always
injecting the token as a query parameter. -/
def call_api (net : Request → Json) (token : String) (verify : Bool)
    (method : String) (params : Option Dict) : List Request × Except Err Json :=
  api_call net verify method "get" (.get (call_api_params token params))

/-- Method `SlackAPI._post_api` (lines 60-75): POST dispatch with a bearer
`Authorization` header and the caller's params as JSON body. -/
def post_api (net : Request → Json) (token : String) (verify : Bool)
    (method : String) (params : Option Dict) : List Request × Except Err Json :=
  api_call net verify method "post"
    (.post [("Authorization", "Bearer " ++ token)] params)

/-- Property `SlackAPI.channels` (lines 96-103): if `self._channels` is
falsy, fetch `channels.list` and store `response['channels']`; return the
attribute.  Returns the value together with the updated client. -/
def channels (net : Request → Json) (c : SlackAPI) :
    List Request × Except Err (Json × SlackAPI) :=
  if truthy c.chansAttr then ([], .ok (c.chansAttr, c))
  else
    match call_api net c.token c.verify "channels.list" none with
    | (log, .error e) => (log, .error e)
    | (log, .ok resp) =>
        match pyIndex resp "channels" with
        | .error e => (log, .error e)
        | .ok v => (log, .ok (v, { c with chansAttr := v }))

/-- Property `SlackAPI.users` (lines 105-112): same caching pattern over
`users.list` and `response['members']`. -/
def users (net : Request → Json) (c : SlackAPI) :
    List Request × Except Err (Json × SlackAPI) :=
  if truthy c.usersAttr then ([], .ok (c.usersAttr, c))
  else
    match call_api net c.token c.verify "users.list" none with
    | (log, .error e) => (log, .error e)
    | (log, .ok resp) =>
        match pyIndex resp "members" with
        | .error e => (log, .error e)
        | .ok v => (log, .ok (v, { c with usersAttr := v }))

/-- Method `SlackAPI.auth_test` (lines 115-119):
`return self._call_api('auth.test') and self._post_api('auth.test')` —
Python `and` short-circuits: the POST happens only when the GET result is
truthy, and a falsy GET result is returned as is. -/
def auth_test (net : Request → Json) (c : SlackAPI) :
    List Request × Except Err Json :=
  match call_api net c.token c.verify "auth.test" none with
  | (log, .error e) => (log, .error e)
  | (log, .ok r1) =>
      if truthy r1 then
        match post_api net c.token c.verify "auth.test" none with
        | (log2, res) => (log ++ log2, res)
      else (log, .ok r1)

/-- Method `SlackAPI.rtm_start` (lines 121-125). -/
def rtm_start (net : Request → Json) (c : SlackAPI) :
    List Request × Except Err Json :=
  call_api net c.token c.verify "rtm.start" none

/-- Method `SlackAPI.chat_post_message` (lines 127-134): a single POST whose
return value is discarded. -/
def chat_post_message (net : Request → Json) (c : SlackAPI) (params : Dict) :
    List Request × Except Err Unit :=
  match post_api net c.token c.verify "chat.postMessage" (some params) with
  | (log, .error e) => (log, .error e)
  | (log, .ok _) => (log, .ok ())

/-- Method `SlackAPI.reload_channels` (lines 165-166):
`self._channels = None`. -/
def reload_channels (c : SlackAPI) : SlackAPI :=
  { c with chansAttr := .null }

/-- Python `channel['name'] == name` where `name` is a `str`: equality with a
non-string value is `False`, never an error. -/
def strEq (v : Json) (k : String) : Bool :=
  match v with
  | .str s => s == k
  | _ => false

/-- The list comprehension `[x for x in elems if x[field] == key]`: evaluates
`x[field]` for every element (propagating `KeyError`/`TypeError`) and keeps
the elements whose field compares equal to the string `key`. -/
def fieldFilter (field key : String) : List Json → Except Err (List Json)
  | [] => .ok []
  | x :: xs =>
      match pyIndex x field with
      | .error e => .error e
      | .ok v =>
          match fieldFilter field key xs with
          | .error e => .error e
          | .ok rest => .ok (if strEq v key then x :: rest else rest)

/-- Method `SlackAPI.channel_from_name` (lines 137-146): comprehension over
`self.channels` filtered on `channel['name'] == name`, take element `[0]`,
and turn the `IndexError` of an empty result into
`ValueError('Unknown channel for name: …')`. -/
def channel_from_name (net : Request → Json) (c : SlackAPI) (name : String) :
    List Request × Except Err (Json × SlackAPI) :=
  match channels net c with
  | (log, .error e) => (log, .error e)
  | (log, .ok (chs, c')) =>
      match chs with
      | .arr elems =>
          match fieldFilter "name" name elems with
          | .error e => (log, .error e)
          | .ok [] => (log, .error (.unknownChannelName name))
          | .ok (x :: _) => (log, .ok (x, c'))
      | _ => (log, .error .typeError)

/-- Method `SlackAPI.user_from_id` (lines 148-154): same pattern over
`self.users` filtered on `user['id'] == user_id`. -/
def user_from_id (net : Request → Json) (c : SlackAPI) (user_id : String) :
    List Request × Except Err (Json × SlackAPI) :=
  match users net c with
  | (log, .error e) => (log, .error e)
  | (log, .ok (us, c')) =>
      match us with
      | .arr elems =>
          match fieldFilter "id" user_id elems with
          | .error e => (log, .error e)
          | .ok [] => (log, .error (.unknownUserId user_id))
          | .ok (x :: _) => (log, .ok (x, c'))
      | _ => (log, .error .typeError)

/-- Method `SlackAPI.channel_from_id` (lines 156-163): same pattern over
`self.channels` filtered on `channel['id'] == channel_id`. -/
def channel_from_id (net : Request → Json) (c : SlackAPI) (channel_id : String) :
    List Request × Except Err (Json × SlackAPI) :=
  match channels net c with
  | (log, .error e) => (log, .error e)
  | (log, .ok (chs, c')) =>
      match chs with
      | .arr elems =>
          match fieldFilter "id" channel_id elems with
          | .error e => (log, .error e)
          | .ok [] => (log, .error (.unknownChannelId channel_id))
          | .ok (x :: _) => (log, .ok (x, c'))
      | _ => (log, .error .typeError)

/-- Token resolution at lines 27-30:
`token if token else os.environ['SLACK_TOKEN']` — Python `None` and the
empty string are both falsy and fall back to the environment variable; a
missing variable turns the `KeyError` into `ValueError` (the spec's
`ConfigurationError`). -/
def resolve_token (token envToken : Option String) : Except Err String :=
  match token with
  | some t =>
      if t ≠ "" then .ok t
      else match envToken with
        | some e => .ok e
        | none => .error .configurationError
  | none =>
      match envToken with
      | some e => .ok e
      | none => .error .configurationError

/-- The `auth_test` block of the constructor (lines 32-35): call
`self.auth_test()` and raise `AuthenticationError` (a `ValueError` carrying
the response) when `response['ok']` is falsy. -/
def init_auth_check (net : Request → Json) (c0 : SlackAPI) :
    List Request × Except Err Unit :=
  match auth_test net c0 with
  | (log, .error e) => (log, .error e)
  | (log, .ok response) =>
      match pyIndex response "ok" with
      | .error e => (log, .error e)
      | .ok okVal =>
          if truthy okVal then (log, .ok ())
          else (log, .error (.authenticationError response))

/-- The eager-population block of the constructor (lines 41-43): force
`self.channels` then `self.users`. -/
def init_eager (net : Request → Json) (c0 : SlackAPI) :
    List Request × Except Err SlackAPI :=
  match channels net c0 with
  | (log2, .error e) => (log2, .error e)
  | (log2, .ok (_, c1)) =>
      match users net c1 with
      | (log3, .error e) => (log2 ++ log3, .error e)
      | (log3, .ok (_, c2)) => (log2 ++ log3, .ok c2)

/-- Constructor `SlackAPI.__init__` (lines 16-43).  `token` is the argument
(Python `None` is `none`; the empty string is falsy and also falls back to
the environment), `envToken` models `os.environ.get('SLACK_TOKEN')`.  The
attributes `_channels`/`_users` are set to `[]` at lines 38-39 (after the
auth block, which never reads them, so initialising the record up front is
equivalent).  If `lazy` is false, `self.channels` then `self.users` are
forced. -/
def SlackAPI.init (net : Request → Json) (token : Option String)
    (envToken : Option String) (authTestFlag verify lazy : Bool) :
    List Request × Except Err SlackAPI :=
  match resolve_token token envToken with
  | .error e => ([], .error e)
  | .ok tok =>
    let c0 : SlackAPI := ⟨tok, verify, .arr [], .arr []⟩
    match (if authTestFlag then init_auth_check net c0 else ([], .ok ())) with
    | (log, .error e) => (log, .error e)
    | (log, .ok ()) =>
        if lazy then (log, .ok c0)
        else
          match init_eager net c0 with
          | (log2, res) => (log ++ log2, res)

/-- One invocation of a public operation of the client, with its arguments. -/
inductive Op where
  | authTestOp
  | rtmStartOp
  | chatPostMessageOp (params : Dict)
  | channelsOp
  | usersOp
  | channelFromNameOp (name : String)
  | userFromIdOp (user_id : String)
  | channelFromIdOp (channel_id : String)
  | reloadChannelsOp

/-- Run one public operation, discarding its return value but keeping the
issued requests and the updated client (or the raised exception). -/
def step (net : Request → Json) (c : SlackAPI) : Op → List Request × Except Err SlackAPI
  | .authTestOp =>
      match auth_test net c with
      | (log, .error e) => (log, .error e)
      | (log, .ok _) => (log, .ok c)
  | .rtmStartOp =>
      match rtm_start net c with
      | (log, .error e) => (log, .error e)
      | (log, .ok _) => (log, .ok c)
  | .chatPostMessageOp params =>
      match chat_post_message net c params with
      | (log, .error e) => (log, .error e)
      | (log, .ok _) => (log, .ok c)
  | .channelsOp =>
      match channels net c with
      | (log, .error e) => (log, .error e)
      | (log, .ok (_, c')) => (log, .ok c')
  | .usersOp =>
      match users net c with
      | (log, .error e) => (log, .error e)
      | (log, .ok (_, c')) => (log, .ok c')
  | .channelFromNameOp name =>
      match channel_from_name net c name with
      | (log, .error e) => (log, .error e)
      | (log, .ok (_, c')) => (log, .ok c')
  | .userFromIdOp user_id =>
      match user_from_id net c user_id with
      | (log, .error e) => (log, .error e)
      | (log, .ok (_, c')) => (log, .ok c')
  | .channelFromIdOp channel_id =>
      match channel_from_id net c channel_id with
      | (log, .error e) => (log, .error e)
      | (log, .ok (_, c')) => (log, .ok c')
  | .reloadChannelsOp => ([], .ok (reload_channels c))

/-- Run a sequence of public operations, accumulating the request log and
stopping at the first raised exception. -/
def runOps (net : Request → Json) (c : SlackAPI) : List Op → List Request × Except Err SlackAPI
  | [] => ([], .ok c)
  | op :: ops =>
      match step net c op with
      | (log, .error e) => (log, .error e)
      | (log, .ok c') =>
          match runOps net c' ops with
          | (log2, res) => (log ++ log2, res)

/-- The GET request `_call_api(method)` issues when called without params. -/
def bareGetReq (token method : String) : Request :=
  ⟨apiUrl method, "get", .get [("token", .str token)]⟩

/-- The POST request `_post_api(method)` issues when called without params. -/
def barePostReq (token method : String) : Request :=
  ⟨apiUrl method, "post", .post [("Authorization", "Bearer " ++ token)] none⟩

/-- Test used to phrase the lookup-helper claims: element `e` has the given
field and it compares string-equal to `key`. -/
def fieldIs (field key : String) (e : Json) : Bool :=
  match pyIndex e field with
  | .ok v => strEq v key
  | .error _ => false

/-! ### Concrete oracles and clients used by witnesses and counterexamples -/

/-- Oracle answering `{"ok": false}` to every request. -/
def netOkFalse : Request → Json := fun _ => .obj [("ok", .bool false)]

/-- Oracle answering the empty mapping `{}` (a falsy value) to every request. -/
def netEmptyObj : Request → Json := fun _ => .obj []

/-- Oracle answering successful responses with one channel and one member. -/
def netSample : Request → Json := fun r =>
  if r.url = apiUrl "channels.list" then
    .obj [("ok", .bool true),
          ("channels", .arr [.obj [("id", .str "C1"), ("name", .str "general")]])]
  else if r.url = apiUrl "users.list" then
    .obj [("ok", .bool true), ("members", .arr [.obj [("id", .str "U1")]])]
  else .obj [("ok", .bool true)]

/-- Oracle whose channel and member collections are empty lists. -/
def netEmptyLists : Request → Json := fun _ =>
  .obj [("ok", .bool true), ("channels", .arr []), ("members", .arr [])]

/-- A client with verification on and both caches empty. -/
def clientFresh : SlackAPI := ⟨"t", true, .arr [], .arr []⟩

/-- A client with verification off and both caches empty. -/
def clientNoVerify : SlackAPI := ⟨"t", false, .arr [], .arr []⟩

/-! ### Shared lemmas -/

/-- Request log of a bare GET dispatch. -/
theorem call_api_fst (net : Request → Json) (token : String) (verify : Bool)
    (method : String) :
    (call_api net token verify method none).1 = [bareGetReq token method] := rfl

/-- Request log of a bare POST dispatch. -/
theorem post_api_fst (net : Request → Json) (token : String) (verify : Bool)
    (method : String) :
    (post_api net token verify method none).1 = [barePostReq token method] := rfl

/-- Successful subscription implies the subscripted value is a non-empty
mapping, hence truthy. -/
theorem pyIndex_ok_truthy {r v : Json} {k : String}
    (h : pyIndex r k = .ok v) : truthy r = true := by
  cases r with
  | obj kvs =>
      cases kvs with
      | nil => simp [pyIndex, dictGet] at h
      | cons hd tl => simp [truthy, List.isEmpty]
  | null => simp [pyIndex] at h
  | bool b => simp [pyIndex] at h
  | num n => simp [pyIndex] at h
  | str s => simp [pyIndex] at h
  | arr l => simp [pyIndex] at h

/-- A verified dispatch that returns did return a response whose success
flag is present and truthy. -/
theorem api_call_ok_verified {net : Request → Json} {method rm : String}
    {kw : RequestKwargs} {r : Json}
    (h : (api_call net true method rm kw).2 = .ok r) :
    ∃ v, pyIndex r "ok" = .ok v ∧ truthy v = true := by
  unfold api_call at h
  rcases hp : pyIndex (net ⟨apiUrl method, rm, kw⟩) "ok" with e | v
  · simp [hp] at h
  · simp only [hp] at h
    by_cases ht : truthy v = true
    · simp [ht] at h
      exact h ▸ ⟨v, hp, ht⟩
    · simp [ht] at h

/-- Subscription can only raise `KeyError` or `TypeError`. -/
theorem pyIndex_error_shape {v : Json} {k : String} {e : Err}
    (h : pyIndex v k = .error e) : e = .keyError k ∨ e = .typeError := by
  cases v with
  | obj kvs =>
      unfold pyIndex at h
      rcases hg : dictGet kvs k with _ | x <;> simp [hg] at h
      exact .inl h.symm
  | null => simp [pyIndex] at h; exact .inr h.symm
  | bool b => simp [pyIndex] at h; exact .inr h.symm
  | num n => simp [pyIndex] at h; exact .inr h.symm
  | str s => simp [pyIndex] at h; exact .inr h.symm
  | arr l => simp [pyIndex] at h; exact .inr h.symm

/-- A dispatch never raises the constructor-level authentication error. -/
theorem api_call_no_auth_error (net : Request → Json) (verify : Bool)
    (method rm : String) (kw : RequestKwargs) (r : Json) :
    (api_call net verify method rm kw).2 ≠ .error (.authenticationError r) := by
  unfold api_call
  by_cases hv : verify = true
  · rcases hp : pyIndex (net ⟨apiUrl method, rm, kw⟩) "ok" with e | v
    · rcases pyIndex_error_shape hp with he | he <;> subst he <;> simp [hv, hp]
    · by_cases ht : truthy v = true <;> simp [hv, hp, ht]
  · simp [hv]

/-- Setting a key makes it readable back. -/
theorem dictGet_dictSet_self (d : Dict) (k : String) (v : Json) :
    dictGet (dictSet d k v) k = some v := by
  induction d with
  | nil => simp [dictSet, dictGet]
  | cons hd tl ih =>
      obtain ⟨k', v'⟩ := hd
      by_cases hk : k' = k
      · subst hk; simp [dictSet, dictGet]
      · simp [dictSet, dictGet, hk, ih]

/-- Setting a key leaves every other key unchanged. -/
theorem dictGet_dictSet_ne (d : Dict) (k k2 : String) (v : Json)
    (hne : k2 ≠ k) : dictGet (dictSet d k v) k2 = dictGet d k2 := by
  induction d with
  | nil => simp [dictSet, dictGet, Ne.symm hne]
  | cons hd tl ih =>
      obtain ⟨k', v'⟩ := hd
      by_cases hk : k' = k
      · subst hk; simp [dictSet, dictGet, Ne.symm hne]
      · simp only [dictSet, if_neg hk]
        by_cases hk2 : k' = k2 <;> simp [dictGet, hk2, ih]

/-! ### Claim C2 -/

/-- Claim C2 (confirmed): a dispatched call raises `APIError` if and only if
`verify` is enabled and the response's success flag is false, the error
carrying exactly the requested URL and the full response body; with `verify`
disabled the raw response mapping is returned unconditionally. -/
theorem api_call_apiError_iff (net : Request → Json) (verify : Bool)
    (method rm : String) (kw : RequestKwargs) :
    (verify = false →
      (api_call net verify method rm kw).2 = .ok (net ⟨apiUrl method, rm, kw⟩)) ∧
    (∀ b u r, pyIndex (net ⟨apiUrl method, rm, kw⟩) "ok" = .ok (.bool b) →
      ((api_call net verify method rm kw).2 = .error (.apiError u r) ↔
        verify = true ∧ b = false ∧ u = apiUrl method
          ∧ r = net ⟨apiUrl method, rm, kw⟩)) := by
  constructor
  · intro hv
    unfold api_call
    simp [hv]
  · intro b u r hok
    unfold api_call
    by_cases hv : verify = true
    · cases b <;> simp [hv, hok, truthy, eq_comm]
    · simp [hv]

/-- Witness for C2 at a concrete failing POST call. -/
theorem api_call_apiError_iff_witness :
    (api_call netOkFalse true "chat.postMessage" "post"
        (.post [("Authorization", "Bearer t")] none)).2
      = .error (.apiError (apiUrl "chat.postMessage") (.obj [("ok", .bool false)])) :=
  ((api_call_apiError_iff netOkFalse true "chat.postMessage" "post"
      (.post [("Authorization", "Bearer t")] none)).2 false
      (apiUrl "chat.postMessage") (.obj [("ok", .bool false)]) rfl).mpr
    ⟨rfl, rfl, rfl, rfl⟩

/-! ### Claim C10 -/

/-- Claim C10 (confirmed): a GET dispatch with a non-empty caller-supplied
params mapping sends the caller's own mapping (as it stands after the call:
no copy is made, line 57 assigns into the caller's dict), that mapping being
the original with its `'token'` key set to the client's credential,
overwriting any caller-provided value there and touching no other key. -/
theorem call_api_mutates_caller_params (net : Request → Json) (token : String)
    (verify : Bool) (method : String) (d : Dict) (hne : d ≠ []) :
    (call_api net token verify method (some d)).1
      = [⟨apiUrl method, "get", .get (call_api_caller_dict token d)⟩] ∧
    call_api_caller_dict token d = dictSet d "token" (Json.str token) ∧
    dictGet (call_api_caller_dict token d) "token" = some (Json.str token) ∧
    ∀ k, k ≠ "token" → dictGet (call_api_caller_dict token d) k = dictGet d k := by
  have hie : d.isEmpty = false := by cases d with
    | nil => exact absurd rfl hne
    | cons hd tl => rfl
  have hcd : call_api_caller_dict token d = dictSet d "token" (Json.str token) := by
    unfold call_api_caller_dict
    simp [hie]
  refine ⟨?_, hcd, ?_, ?_⟩
  · unfold call_api api_call call_api_params call_api_caller_dict
    simp [hie]
  · rw [hcd]; exact dictGet_dictSet_self d "token" (Json.str token)
  · intro k hk
    rw [hcd]
    exact dictGet_dictSet_ne d "token" k (Json.str token) hk

/-- Witness for C10 on a params dict that already carries a stale token. -/
theorem call_api_mutates_caller_params_witness :
    ([("token", Json.str "old"), ("q", Json.str "x")] : Dict) ≠ [] ∧
    dictGet (call_api_caller_dict "t"
        [("token", Json.str "old"), ("q", Json.str "x")]) "token"
      = some (Json.str "t") :=
  ⟨by simp,
   (call_api_mutates_caller_params netSample "t" true "channels.list"
      [("token", Json.str "old"), ("q", Json.str "x")] (by simp)).2.2.1⟩

/-! ### Claim C1 -/

/-- Counterexample to C1: with `verifyAuth=true` and response verification
on (its default), an auth-check response `{ok: false}` makes construction
fail with `APIError` from the dispatch layer, not `AuthenticationError`. -/
theorem init_auth_failure_raises_apiError :
    (SlackAPI.init netOkFalse (some "t") none true true false).2
      = .error (.apiError (apiUrl "auth.test") (.obj [("ok", .bool false)])) := rfl

/-- Claim C1 (corrected): with `verifyAuth=true` and response verification
disabled, an auth-check (POST) response whose success flag is falsy makes
construction fail with `AuthenticationError` carrying that response and no
other error; with verification enabled the failure is `APIError` instead
(see the counterexample). -/
theorem init_auth_failure_no_verify (net : Request → Json) (tok : String)
    (env : Option String) (lazy : Bool) (v : Json)
    (htok : tok ≠ "")
    (hget : truthy (net (bareGetReq tok "auth.test")) = true)
    (hok : pyIndex (net (barePostReq tok "auth.test")) "ok" = .ok v)
    (hfalse : truthy v = false) :
    (SlackAPI.init net (some tok) env true false lazy).2
      = .error (.authenticationError (net (barePostReq tok "auth.test"))) := by
  unfold SlackAPI.init resolve_token init_auth_check auth_test call_api post_api
    api_call call_api_params
  simp only [bareGetReq, barePostReq] at hget hok
  simp [htok, hget, hok, hfalse, barePostReq]

/-- Witness for the corrected C1 at a concrete failing oracle. -/
theorem init_auth_failure_no_verify_witness :
    ("t" : String) ≠ "" ∧
    (SlackAPI.init netOkFalse (some "t") none true false false).2
      = .error (.authenticationError (.obj [("ok", .bool false)])) :=
  ⟨by decide,
   init_auth_failure_no_verify netOkFalse "t" none false (.bool false)
     (by decide) rfl rfl rfl⟩

/-! ### Claim C4 -/

/-- Counterexample to C4: when the GET result is falsy (here the empty
mapping, with verification off), `and` short-circuits — no POST call is
issued and the GET result itself is returned, so `authTest` does not always
perform both calls or return the second result. -/
theorem auth_test_skips_post_cex :
    auth_test netEmptyObj clientNoVerify
      = ([bareGetReq "t" "auth.test"], .ok (.obj [])) := rfl

/-- Claim C4 (corrected): `authTest` performs the GET-style call; when its
result is truthy it then performs the POST-style call to the same method and
returns the POST result; when the GET result is falsy it returns that result
directly without issuing the POST. -/
theorem auth_test_get_then_post (net : Request → Json) (c : SlackAPI) (r1 : Json)
    (hg : (call_api net c.token c.verify "auth.test" none).2 = .ok r1) :
    (truthy r1 = true →
      auth_test net c
        = ([bareGetReq c.token "auth.test", barePostReq c.token "auth.test"],
           (post_api net c.token c.verify "auth.test" none).2)) ∧
    (truthy r1 = false →
      auth_test net c = ([bareGetReq c.token "auth.test"], .ok r1)) := by
  have hpair : call_api net c.token c.verify "auth.test" none
      = ([bareGetReq c.token "auth.test"], Except.ok r1) := by
    rw [← hg]
    rfl
  constructor
  · intro ht
    unfold auth_test
    rw [hpair]
    simp [ht, post_api, api_call, barePostReq]
  · intro ht
    unfold auth_test
    rw [hpair]
    simp [ht]

/-- Witness for the corrected C4: a truthy GET result leads to both calls
and the POST result. -/
theorem auth_test_get_then_post_witness :
    truthy (.obj [("ok", Json.bool true)]) = true ∧
    auth_test netSample clientFresh
      = ([bareGetReq "t" "auth.test", barePostReq "t" "auth.test"],
         .ok (.obj [("ok", Json.bool true)])) :=
  ⟨rfl,
   (auth_test_get_then_post netSample clientFresh (.obj [("ok", Json.bool true)])
      rfl).1 rfl⟩

/-! ### Claim C5 -/

/-- The auth-test method issues at most two requests. -/
theorem auth_test_fst_le (net : Request → Json) (c : SlackAPI) :
    (auth_test net c).1.length ≤ 2 := by
  unfold auth_test
  rcases h : call_api net c.token c.verify "auth.test" none with ⟨log, res⟩
  have h1 := call_api_fst net c.token c.verify "auth.test"
  rw [h] at h1
  simp only at h1
  simp only [h]
  cases res with
  | error e => simp [h1]
  | ok r1 =>
      by_cases ht : truthy r1 = true
      · rcases hp : post_api net c.token c.verify "auth.test" none with ⟨log2, res2⟩
        have h2 := post_api_fst net c.token c.verify "auth.test"
        rw [hp] at h2
        simp only at h2
        simp [ht, h1, h2]
      · simp [ht, h1]

/-- The channel property issues at most one request. -/
theorem channels_fst_le (net : Request → Json) (c : SlackAPI) :
    (channels net c).1.length ≤ 1 := by
  unfold channels
  by_cases hc : truthy c.chansAttr = true
  · simp [hc]
  · rcases h : call_api net c.token c.verify "channels.list" none with ⟨log, res⟩
    have h1 := call_api_fst net c.token c.verify "channels.list"
    rw [h] at h1
    simp only at h1
    simp only [hc, h]
    cases res with
    | error e => simp [h1]
    | ok r =>
        cases hp : pyIndex r "channels" with
        | error e => simp [hp, h1]
        | ok v => simp [hp, h1]

/-- The user property issues at most one request. -/
theorem users_fst_le (net : Request → Json) (c : SlackAPI) :
    (users net c).1.length ≤ 1 := by
  unfold users
  by_cases hc : truthy c.usersAttr = true
  · simp [hc]
  · rcases h : call_api net c.token c.verify "users.list" none with ⟨log, res⟩
    have h1 := call_api_fst net c.token c.verify "users.list"
    rw [h] at h1
    simp only at h1
    simp only [hc, h]
    cases res with
    | error e => simp [h1]
    | ok r =>
        cases hp : pyIndex r "members" with
        | error e => simp [hp, h1]
        | ok v => simp [hp, h1]

/-- Counterexample to C5: eager construction with the auth check on issues
four network calls (auth GET, auth POST, channel list, user list), which is
more than three. -/
theorem init_four_calls_cex :
    (SlackAPI.init netSample (some "t") none true true false).1.length = 4 := rfl

/-- The constructor's auth block issues at most two requests. -/
theorem init_auth_check_fst_le (net : Request → Json) (c0 : SlackAPI) :
    (init_auth_check net c0).1.length ≤ 2 := by
  unfold init_auth_check
  rcases h : auth_test net c0 with ⟨log, res⟩
  have hb := auth_test_fst_le net c0
  rw [h] at hb
  simp only at hb
  cases res with
  | error e => simpa using hb
  | ok response =>
      cases hp : pyIndex response "ok" with
      | error e => simpa [hp] using hb
      | ok okVal =>
          by_cases ht : truthy okVal = true <;> simpa [hp, ht] using hb

/-- The constructor's eager-population block issues at most two requests. -/
theorem init_eager_fst_le (net : Request → Json) (c0 : SlackAPI) :
    (init_eager net c0).1.length ≤ 2 := by
  unfold init_eager
  rcases hch : channels net c0 with ⟨log2, res2⟩
  have hb2 := channels_fst_le net c0
  rw [hch] at hb2
  simp only at hb2
  cases res2 with
  | error e => simpa using hb2.trans (by norm_num)
  | ok pr =>
      obtain ⟨x, c1⟩ := pr
      rcases hus : users net c1 with ⟨log3, res3⟩
      have hb3 := users_fst_le net c1
      rw [hus] at hb3
      simp only at hb3
      simp only [hus]
      cases res3 <;> simp only [List.length_append] <;> omega

/-- Claim C5 (corrected): construction performs at most four network calls —
the authentication check alone accounts for up to two (its GET and its
POST), plus the channel-list and user-list fetches when `lazy` is false. -/
theorem init_at_most_four_calls (net : Request → Json)
    (token envToken : Option String) (aFlag vFlag lzFlag : Bool) :
    (SlackAPI.init net token envToken aFlag vFlag lzFlag).1.length ≤ 4 := by
  unfold SlackAPI.init
  cases htok : resolve_token token envToken with
  | error e => simp [htok]
  | ok tok =>
      simp only [htok]
      rcases ha : (if aFlag = true
          then init_auth_check net ⟨tok, vFlag, .arr [], .arr []⟩
          else ([], .ok ())) with ⟨log, res⟩
      have hla : log.length ≤ 2 := by
        by_cases haf : aFlag = true
        · rw [if_pos haf] at ha
          have hb := init_auth_check_fst_le net ⟨tok, vFlag, .arr [], .arr []⟩
          rw [ha] at hb
          simpa using hb
        · rw [if_neg haf] at ha
          cases ha
          simp
      cases res with
      | error e => simpa using hla.trans (by norm_num)
      | ok u =>
          cases u
          by_cases hlz : lzFlag = true
          · simpa [hlz] using hla.trans (by norm_num)
          · have hlzf : lzFlag = false := by
              cases lzFlag
              · rfl
              · exact absurd rfl hlz
            subst hlzf
            have hle := init_eager_fst_le net ⟨tok, vFlag, .arr [], .arr []⟩
            simp
            omega

/-! ### Shared cache lemmas (claims C3, C6, C9) -/

/-- A truthy channel cache is returned as is, with no request. -/
theorem channels_cached (net : Request → Json) (c : SlackAPI)
    (hc : truthy c.chansAttr = true) :
    channels net c = ([], .ok (c.chansAttr, c)) := by
  unfold channels
  rw [if_pos hc]

/-- A truthy user cache is returned as is, with no request. -/
theorem users_cached (net : Request → Json) (c : SlackAPI)
    (hc : truthy c.usersAttr = true) :
    users net c = ([], .ok (c.usersAttr, c)) := by
  unfold users
  rw [if_pos hc]

/-- A falsy channel cache issues exactly the `channels.list` GET request,
whatever the response. -/
theorem channels_fst_fetch (net : Request → Json) (c : SlackAPI)
    (hc : truthy c.chansAttr = false) :
    (channels net c).1 = [bareGetReq c.token "channels.list"] := by
  unfold channels
  rw [if_neg (by simp [hc])]
  rcases h : call_api net c.token c.verify "channels.list" none with ⟨log, res⟩
  have h1 := call_api_fst net c.token c.verify "channels.list"
  rw [h] at h1
  simp only at h1
  cases res with
  | error e => simpa using h1
  | ok resp =>
      cases hp : pyIndex resp "channels" with
      | error e => simpa [hp] using h1
      | ok v => simpa [hp] using h1

/-- A falsy user cache issues exactly the `users.list` GET request. -/
theorem users_fst_fetch (net : Request → Json) (c : SlackAPI)
    (hc : truthy c.usersAttr = false) :
    (users net c).1 = [bareGetReq c.token "users.list"] := by
  unfold users
  rw [if_neg (by simp [hc])]
  rcases h : call_api net c.token c.verify "users.list" none with ⟨log, res⟩
  have h1 := call_api_fst net c.token c.verify "users.list"
  rw [h] at h1
  simp only at h1
  cases res with
  | error e => simpa using h1
  | ok resp =>
      cases hp : pyIndex resp "members" with
      | error e => simpa [hp] using h1
      | ok v => simpa [hp] using h1

/-- A successful fetch through the channel property stores the fetched value
and changes nothing else. -/
theorem channels_fetch_ok {net : Request → Json} {c : SlackAPI} {cv : Json}
    {c' : SlackAPI} (hc : truthy c.chansAttr = false)
    (hcf : (channels net c).2 = .ok (cv, c')) :
    c' = { c with chansAttr := cv } := by
  unfold channels at hcf
  rw [if_neg (by simp [hc])] at hcf
  rcases h : call_api net c.token c.verify "channels.list" none with ⟨log, res⟩
  rw [h] at hcf
  cases res with
  | error e => simp at hcf
  | ok resp =>
      cases hp : pyIndex resp "channels" with
      | error e => simp [hp] at hcf
      | ok v =>
          simp [hp] at hcf
          obtain ⟨hv, hc'⟩ := hcf
          rw [← hc', ← hv]

/-- A successful fetch through the user property stores the fetched value
and changes nothing else. -/
theorem users_fetch_ok {net : Request → Json} {c : SlackAPI} {uv : Json}
    {c' : SlackAPI} (hc : truthy c.usersAttr = false)
    (hcf : (users net c).2 = .ok (uv, c')) :
    c' = { c with usersAttr := uv } := by
  unfold users at hcf
  rw [if_neg (by simp [hc])] at hcf
  rcases h : call_api net c.token c.verify "users.list" none with ⟨log, res⟩
  rw [h] at hcf
  cases res with
  | error e => simp at hcf
  | ok resp =>
      cases hp : pyIndex resp "members" with
      | error e => simp [hp] at hcf
      | ok v =>
          simp [hp] at hcf
          obtain ⟨hv, hc'⟩ := hcf
          rw [← hc', ← hv]

/-! ### Claim C3 -/

/-- Counterexample to C3: when the remote channel collection is the empty
list the stored cache stays falsy, so two consecutive `channels()` accesses
with no intervening reload issue two network fetches, not one. -/
theorem channels_twice_two_fetches_cex :
    (runOps netEmptyLists clientFresh [Op.channelsOp, Op.channelsOp]).1.length
      = 2 := rfl

/-- Claim C3 (corrected): provided the fetched collection is truthy (in
particular non-empty), two consecutive accesses with no intervening reload
issue exactly one network fetch — the first access on an empty cache issues
the single list request and stores the result, and a subsequent access
returns the stored value with no request; likewise for `users()`.  (When the
fetched collection is empty the cache stays falsy and every access
refetches — claim C9.) -/
theorem channels_users_fetch_once (net : Request → Json) (c d : SlackAPI)
    (cv uv : Json) (c' d' : SlackAPI)
    (hc : truthy c.chansAttr = false)
    (hcf : (channels net c).2 = .ok (cv, c'))
    (hct : truthy cv = true)
    (hd : truthy d.usersAttr = false)
    (hdf : (users net d).2 = .ok (uv, d'))
    (hdt : truthy uv = true) :
    ((channels net c).1 = [bareGetReq c.token "channels.list"] ∧
     c'.chansAttr = cv ∧
     channels net c' = ([], .ok (cv, c'))) ∧
    ((users net d).1 = [bareGetReq d.token "users.list"] ∧
     d'.usersAttr = uv ∧
     users net d' = ([], .ok (uv, d'))) := by
  have hc' := channels_fetch_ok hc hcf
  have hd' := users_fetch_ok hd hdf
  subst hc'
  subst hd'
  refine ⟨⟨channels_fst_fetch net c hc, rfl, ?_⟩,
          ⟨users_fst_fetch net d hd, rfl, ?_⟩⟩
  · exact channels_cached net _ hct
  · exact users_cached net _ hdt

/-- One channel mapping, as served by `netSample`. -/
def chanGeneral : Json := .obj [("id", .str "C1"), ("name", .str "general")]

/-- One user mapping, as served by `netSample`. -/
def userU1 : Json := .obj [("id", .str "U1")]

/-- Witness for the corrected C3 at the sample oracle. -/
theorem channels_users_fetch_once_witness :
    truthy (Json.arr [chanGeneral]) = true ∧
    channels netSample ⟨"t", true, .arr [chanGeneral], .arr []⟩
      = ([], .ok (.arr [chanGeneral], ⟨"t", true, .arr [chanGeneral], .arr []⟩)) ∧
    users netSample ⟨"t", true, .arr [], .arr [userU1]⟩
      = ([], .ok (.arr [userU1], ⟨"t", true, .arr [], .arr [userU1]⟩)) := by
  have h := channels_users_fetch_once netSample clientFresh clientFresh
    (.arr [chanGeneral]) (.arr [userU1])
    ⟨"t", true, .arr [chanGeneral], .arr []⟩
    ⟨"t", true, .arr [], .arr [userU1]⟩
    rfl rfl rfl rfl rfl rfl
  exact ⟨rfl, h.1.2.2, h.2.2.2⟩

/-! ### Claim C9 -/

/-- Claim C9 (confirmed): caching is keyed on truthiness, not on having been
fetched — when the fetched collection is falsy (the empty sequence), the
stored cache is indistinguishable from a never-populated one, so the access
after a successful fetch issues a fresh network fetch again; likewise for
users. -/
theorem empty_collections_always_refetch (net : Request → Json)
    (c d : SlackAPI) (cv uv : Json) (c' d' : SlackAPI)
    (hc : truthy c.chansAttr = false)
    (hcf : (channels net c).2 = .ok (cv, c'))
    (hct : truthy cv = false)
    (hd : truthy d.usersAttr = false)
    (hdf : (users net d).2 = .ok (uv, d'))
    (hdt : truthy uv = false) :
    ((channels net c).1 = [bareGetReq c.token "channels.list"] ∧
     (channels net c').1 = [bareGetReq c.token "channels.list"]) ∧
    ((users net d).1 = [bareGetReq d.token "users.list"] ∧
     (users net d').1 = [bareGetReq d.token "users.list"]) := by
  have hc' := channels_fetch_ok hc hcf
  have hd' := users_fetch_ok hd hdf
  subst hc'
  subst hd'
  exact ⟨⟨channels_fst_fetch net c hc, channels_fst_fetch net _ hct⟩,
         ⟨users_fst_fetch net d hd, users_fst_fetch net _ hdt⟩⟩

/-- Witness for C9 at the empty-collection oracle. -/
theorem empty_collections_always_refetch_witness :
    truthy (Json.arr []) = false ∧
    (channels netEmptyLists clientFresh).1 = [bareGetReq "t" "channels.list"] ∧
    (users netEmptyLists clientFresh).1 = [bareGetReq "t" "users.list"] := by
  have h := empty_collections_always_refetch netEmptyLists clientFresh
    clientFresh (.arr []) (.arr []) clientFresh clientFresh
    rfl rfl rfl rfl rfl rfl
  exact ⟨rfl, h.1.1, h.2.1⟩

/-! ### Claim C6 -/

/-- Request log of a POST dispatch with arbitrary params. -/
theorem post_api_fst_any (net : Request → Json) (token : String) (verify : Bool)
    (method : String) (params : Option Dict) :
    (post_api net token verify method params).1
      = [⟨apiUrl method, "post",
          .post [("Authorization", "Bearer " ++ token)] params⟩] := rfl

/-- Unfolding of the auth-test step. -/
theorem step_authTest_eq (net : Request → Json) (c : SlackAPI) :
    step net c .authTestOp
      = ((auth_test net c).1, (auth_test net c).2.map (fun _ => c)) := by
  unfold step
  rcases h : auth_test net c with ⟨log, res⟩
  cases res <;> simp [h, Except.map]

/-- Unfolding of the rtm-start step. -/
theorem step_rtmStart_eq (net : Request → Json) (c : SlackAPI) :
    step net c .rtmStartOp
      = ((rtm_start net c).1, (rtm_start net c).2.map (fun _ => c)) := by
  unfold step
  rcases h : rtm_start net c with ⟨log, res⟩
  cases res <;> simp [h, Except.map]

/-- Unfolding of the message-posting step. -/
theorem step_chatPost_eq (net : Request → Json) (c : SlackAPI) (params : Dict) :
    step net c (.chatPostMessageOp params)
      = ((chat_post_message net c params).1,
         (chat_post_message net c params).2.map (fun _ => c)) := by
  unfold step
  rcases h : chat_post_message net c params with ⟨log, res⟩
  cases res <;> simp [h, Except.map]

/-- Unfolding of the channels step. -/
theorem step_channels_eq (net : Request → Json) (c : SlackAPI) :
    step net c .channelsOp
      = ((channels net c).1, (channels net c).2.map Prod.snd) := by
  unfold step
  rcases h : channels net c with ⟨log, res⟩
  cases res with
  | error e => simp [h, Except.map]
  | ok pr => obtain ⟨x, c'⟩ := pr; simp [h, Except.map]

/-- Unfolding of the users step. -/
theorem step_users_eq (net : Request → Json) (c : SlackAPI) :
    step net c .usersOp
      = ((users net c).1, (users net c).2.map Prod.snd) := by
  unfold step
  rcases h : users net c with ⟨log, res⟩
  cases res with
  | error e => simp [h, Except.map]
  | ok pr => obtain ⟨x, c'⟩ := pr; simp [h, Except.map]

/-- Unfolding of the channel-by-name step. -/
theorem step_channelFromName_eq (net : Request → Json) (c : SlackAPI)
    (name : String) :
    step net c (.channelFromNameOp name)
      = ((channel_from_name net c name).1,
         (channel_from_name net c name).2.map Prod.snd) := by
  unfold step
  rcases h : channel_from_name net c name with ⟨log, res⟩
  cases res with
  | error e => simp [h, Except.map]
  | ok pr => obtain ⟨x, c'⟩ := pr; simp [h, Except.map]

/-- Unfolding of the user-by-id step. -/
theorem step_userFromId_eq (net : Request → Json) (c : SlackAPI)
    (user_id : String) :
    step net c (.userFromIdOp user_id)
      = ((user_from_id net c user_id).1,
         (user_from_id net c user_id).2.map Prod.snd) := by
  unfold step
  rcases h : user_from_id net c user_id with ⟨log, res⟩
  cases res with
  | error e => simp [h, Except.map]
  | ok pr => obtain ⟨x, c'⟩ := pr; simp [h, Except.map]

/-- Unfolding of the channel-by-id step. -/
theorem step_channelFromId_eq (net : Request → Json) (c : SlackAPI)
    (channel_id : String) :
    step net c (.channelFromIdOp channel_id)
      = ((channel_from_id net c channel_id).1,
         (channel_from_id net c channel_id).2.map Prod.snd) := by
  unfold step
  rcases h : channel_from_id net c channel_id with ⟨log, res⟩
  cases res with
  | error e => simp [h, Except.map]
  | ok pr => obtain ⟨x, c'⟩ := pr; simp [h, Except.map]

/-- The auth-test log is the GET request alone or the GET then the POST. -/
theorem auth_test_fst_cases (net : Request → Json) (c : SlackAPI) :
    (auth_test net c).1 = [bareGetReq c.token "auth.test"] ∨
    (auth_test net c).1
      = [bareGetReq c.token "auth.test", barePostReq c.token "auth.test"] := by
  unfold auth_test
  rcases h : call_api net c.token c.verify "auth.test" none with ⟨log, res⟩
  have h1 := call_api_fst net c.token c.verify "auth.test"
  rw [h] at h1
  simp only at h1
  cases res with
  | error e => exact .inl (by simpa using h1)
  | ok r1 =>
      by_cases ht : truthy r1 = true
      · rcases hp : post_api net c.token c.verify "auth.test" none with ⟨log2, res2⟩
        have h2 := post_api_fst net c.token c.verify "auth.test"
        rw [hp] at h2
        simp only at h2
        exact .inr (by simp [ht, h1, h2])
      · exact .inl (by simp [ht, h1])

/-- The channels log is empty (cache hit) or the single list request. -/
theorem channels_fst_cases (net : Request → Json) (c : SlackAPI) :
    (channels net c).1 = [] ∨
    (channels net c).1 = [bareGetReq c.token "channels.list"] := by
  cases ht : truthy c.chansAttr
  · exact .inr (channels_fst_fetch net c ht)
  · rw [channels_cached net c ht]
    exact .inl rfl

/-- A successful channels access leaves the user cache unchanged. -/
theorem channels_ok_usersAttr (net : Request → Json) (c : SlackAPI)
    (x : Json) (c' : SlackAPI) (h : (channels net c).2 = .ok (x, c')) :
    c'.usersAttr = c.usersAttr := by
  cases ht : truthy c.chansAttr
  · rw [channels_fetch_ok ht h]
  · rw [channels_cached net c ht] at h
    simp at h
    rw [← h.2]

/-- The lookup over channels issues exactly the channel-property requests. -/
theorem channel_from_name_fst (net : Request → Json) (c : SlackAPI)
    (name : String) :
    (channel_from_name net c name).1 = (channels net c).1 := by
  unfold channel_from_name
  rcases h : channels net c with ⟨log, res⟩
  cases res with
  | error e => simp
  | ok pr =>
      obtain ⟨chs, c'⟩ := pr
      cases chs with
      | arr elems =>
          rcases hf : fieldFilter "name" name elems with e | l
          · simp [hf]
          · cases l <;> simp [hf]
      | null => simp
      | bool b => simp
      | num n => simp
      | str s => simp
      | obj kvs => simp

/-- A successful channel-by-name lookup ends in the channel property's
post-access state. -/
theorem channel_from_name_ok_state (net : Request → Json) (c : SlackAPI)
    (name : String) (x : Json) (c2 : SlackAPI)
    (h : (channel_from_name net c name).2 = .ok (x, c2)) :
    ∃ y, (channels net c).2 = .ok (y, c2) := by
  unfold channel_from_name at h
  rcases hc : channels net c with ⟨log, res⟩
  rw [hc] at h
  cases res with
  | error e => simp at h
  | ok pr =>
      obtain ⟨chs, c'⟩ := pr
      cases chs with
      | arr elems =>
          rcases hf : fieldFilter "name" name elems with e | l
          · simp [hf] at h
          · cases l with
            | nil => simp [hf] at h
            | cons y ys =>
                simp [hf] at h
                refine ⟨.arr elems, ?_⟩
                simp [h.2]
      | null => simp at h
      | bool b => simp at h
      | num n => simp at h
      | str s => simp at h
      | obj kvs => simp at h

/-- The lookup over channels by id issues exactly the channel-property
requests. -/
theorem channel_from_id_fst (net : Request → Json) (c : SlackAPI)
    (channel_id : String) :
    (channel_from_id net c channel_id).1 = (channels net c).1 := by
  unfold channel_from_id
  rcases h : channels net c with ⟨log, res⟩
  cases res with
  | error e => simp
  | ok pr =>
      obtain ⟨chs, c'⟩ := pr
      cases chs with
      | arr elems =>
          rcases hf : fieldFilter "id" channel_id elems with e | l
          · simp [hf]
          · cases l <;> simp [hf]
      | null => simp
      | bool b => simp
      | num n => simp
      | str s => simp
      | obj kvs => simp

/-- A successful channel-by-id lookup ends in the channel property's
post-access state. -/
theorem channel_from_id_ok_state (net : Request → Json) (c : SlackAPI)
    (channel_id : String) (x : Json) (c2 : SlackAPI)
    (h : (channel_from_id net c channel_id).2 = .ok (x, c2)) :
    ∃ y, (channels net c).2 = .ok (y, c2) := by
  unfold channel_from_id at h
  rcases hc : channels net c with ⟨log, res⟩
  rw [hc] at h
  cases res with
  | error e => simp at h
  | ok pr =>
      obtain ⟨chs, c'⟩ := pr
      cases chs with
      | arr elems =>
          rcases hf : fieldFilter "id" channel_id elems with e | l
          · simp [hf] at h
          · cases l with
            | nil => simp [hf] at h
            | cons y ys =>
                simp [hf] at h
                refine ⟨.arr elems, ?_⟩
                simp [h.2]
      | null => simp at h
      | bool b => simp at h
      | num n => simp at h
      | str s => simp at h
      | obj kvs => simp at h

/-- With a truthy user cache, the user-by-id lookup issues no request and
leaves the client unchanged on success. -/
theorem user_from_id_cached (net : Request → Json) (c : SlackAPI)
    (user_id : String) (hu : truthy c.usersAttr = true) :
    (user_from_id net c user_id).1 = [] ∧
    (∀ x c2, (user_from_id net c user_id).2 = .ok (x, c2) → c2 = c) := by
  unfold user_from_id
  rw [users_cached net c hu]
  cases hus : c.usersAttr with
  | arr elems =>
      rcases hf : fieldFilter "id" user_id elems with e | l
      · simp [hf]
      · cases l with
        | nil => simp [hf]
        | cons y ys => simp [hf]
  | null => simp
  | bool b => simp
  | num n => simp
  | str s => simp
  | obj kvs => simp

/-- The auth-check URL differs from the user-list URL. -/
theorem authUrl_ne : apiUrl "auth.test" ≠ apiUrl "users.list" := by decide

/-- The handshake URL differs from the user-list URL. -/
theorem rtmUrl_ne : apiUrl "rtm.start" ≠ apiUrl "users.list" := by decide

/-- The channel-list URL differs from the user-list URL. -/
theorem chanUrl_ne : apiUrl "channels.list" ≠ apiUrl "users.list" := by decide

/-- The message-posting URL differs from the user-list URL. -/
theorem postMsgUrl_ne : apiUrl "chat.postMessage" ≠ apiUrl "users.list" := by decide

/-- Request log of the message-posting method. -/
theorem chat_post_message_fst (net : Request → Json) (c : SlackAPI)
    (params : Dict) :
    (chat_post_message net c params).1
      = [⟨apiUrl "chat.postMessage", "post",
          .post [("Authorization", "Bearer " ++ c.token)] (some params)⟩] := by
  unfold chat_post_message
  rcases h : post_api net c.token c.verify "chat.postMessage" (some params)
    with ⟨log, res⟩
  have h1 := post_api_fst_any net c.token c.verify "chat.postMessage" (some params)
  rw [h] at h1
  simp only at h1
  cases res <;> simpa using h1

/-- No public operation run on a client with a truthy (populated) user cache
issues a `users.list` request, and each leaves the user cache unchanged on
success. -/
theorem step_users_invariant (net : Request → Json) (c : SlackAPI) (op : Op)
    (hu : truthy c.usersAttr = true) (log : List Request)
    (res : Except Err SlackAPI) (hs : step net c op = (log, res)) :
    (∀ r ∈ log, r.url ≠ apiUrl "users.list") ∧
    (∀ c', res = .ok c' → c'.usersAttr = c.usersAttr) := by
  cases op with
  | authTestOp =>
      rw [step_authTest_eq] at hs
      injection hs with h1 h2
      subst h1
      subst h2
      constructor
      · intro r hr
        rcases auth_test_fst_cases net c with h | h <;> rw [h] at hr <;> simp at hr
        · subst hr; exact authUrl_ne
        · rcases hr with hr | hr <;> subst hr
          · exact authUrl_ne
          · exact authUrl_ne
      · intro c' h
        rcases ha : (auth_test net c).2 with e | r2 <;> rw [ha] at h <;>
          simp [Except.map] at h
        subst h
        rfl
  | rtmStartOp =>
      rw [step_rtmStart_eq] at hs
      injection hs with h1 h2
      subst h1
      subst h2
      constructor
      · intro r hr
        have hf : (rtm_start net c).1 = [bareGetReq c.token "rtm.start"] := rfl
        rw [hf] at hr
        simp at hr
        subst hr
        exact rtmUrl_ne
      · intro c' h
        rcases ha : (rtm_start net c).2 with e | r2 <;> rw [ha] at h <;>
          simp [Except.map] at h
        subst h
        rfl
  | chatPostMessageOp params =>
      rw [step_chatPost_eq] at hs
      injection hs with h1 h2
      subst h1
      subst h2
      constructor
      · intro r hr
        rw [chat_post_message_fst] at hr
        simp at hr
        subst hr
        exact postMsgUrl_ne
      · intro c' h
        rcases ha : (chat_post_message net c params).2 with e | r2 <;>
          rw [ha] at h <;> simp [Except.map] at h
        subst h
        rfl
  | channelsOp =>
      rw [step_channels_eq] at hs
      injection hs with h1 h2
      subst h1
      subst h2
      constructor
      · intro r hr
        rcases channels_fst_cases net c with h | h <;> rw [h] at hr <;> simp at hr
        subst hr
        exact chanUrl_ne
      · intro c' h
        rcases ha : (channels net c).2 with e | pr <;> rw [ha] at h <;>
          simp [Except.map] at h
        obtain ⟨x, cc⟩ := pr
        simp at h
        subst h
        exact channels_ok_usersAttr net c x cc ha
  | usersOp =>
      rw [step_users_eq] at hs
      injection hs with h1 h2
      subst h1
      subst h2
      rw [users_cached net c hu]
      constructor
      · intro r hr
        simp at hr
      · intro c' h
        simp [Except.map] at h
        subst h
        rfl
  | channelFromNameOp name =>
      rw [step_channelFromName_eq] at hs
      injection hs with h1 h2
      subst h1
      subst h2
      constructor
      · intro r hr
        rw [channel_from_name_fst] at hr
        rcases channels_fst_cases net c with h | h <;> rw [h] at hr <;> simp at hr
        subst hr
        exact chanUrl_ne
      · intro c' h
        rcases ha : (channel_from_name net c name).2 with e | pr <;>
          rw [ha] at h <;> simp [Except.map] at h
        obtain ⟨x, cc⟩ := pr
        simp at h
        subst h
        obtain ⟨y, hy⟩ := channel_from_name_ok_state net c name x cc ha
        exact channels_ok_usersAttr net c y cc hy
  | userFromIdOp user_id =>
      rw [step_userFromId_eq] at hs
      injection hs with h1 h2
      subst h1
      subst h2
      obtain ⟨hfst, hok⟩ := user_from_id_cached net c user_id hu
      constructor
      · intro r hr
        rw [hfst] at hr
        simp at hr
      · intro c' h
        rcases ha : (user_from_id net c user_id).2 with e | pr <;>
          rw [ha] at h <;> simp [Except.map] at h
        obtain ⟨x, cc⟩ := pr
        simp at h
        subst h
        rw [hok x cc ha]
  | channelFromIdOp channel_id =>
      rw [step_channelFromId_eq] at hs
      injection hs with h1 h2
      subst h1
      subst h2
      constructor
      · intro r hr
        rw [channel_from_id_fst] at hr
        rcases channels_fst_cases net c with h | h <;> rw [h] at hr <;> simp at hr
        subst hr
        exact chanUrl_ne
      · intro c' h
        rcases ha : (channel_from_id net c channel_id).2 with e | pr <;>
          rw [ha] at h <;> simp [Except.map] at h
        obtain ⟨x, cc⟩ := pr
        simp at h
        subst h
        obtain ⟨y, hy⟩ := channel_from_id_ok_state net c channel_id x cc ha
        exact channels_ok_usersAttr net c y cc hy
  | reloadChannelsOp =>
      unfold step at hs
      injection hs with h1 h2
      subst h1
      subst h2
      constructor
      · intro r hr
        simp at hr
      · intro c' h
        simp at h
        subst h
        rfl

/-- The step invariant extends to arbitrary sequences of operations. -/
theorem runOps_users_invariant (net : Request → Json) (ops : List Op) :
    ∀ c : SlackAPI, truthy c.usersAttr = true →
    (∀ r ∈ (runOps net c ops).1, r.url ≠ apiUrl "users.list") ∧
    (∀ c', (runOps net c ops).2 = .ok c' → c'.usersAttr = c.usersAttr) := by
  induction ops with
  | nil =>
      intro c hu
      constructor
      · intro r hr
        simp [runOps] at hr
      · intro c' h
        simp [runOps] at h
        rw [← h]
  | cons op ops ih =>
      intro c hu
      rcases hs : step net c op with ⟨log, res⟩
      have hstep := step_users_invariant net c op hu log res hs
      cases res with
      | error e =>
          have hrun : runOps net c (op :: ops) = (log, .error e) := by
            show (match step net c op with
                  | (log, Except.error e) => (log, Except.error e)
                  | (log, Except.ok c2) =>
                      match runOps net c2 ops with
                      | (log2, r2) => (log ++ log2, r2)) = (log, .error e)
            rw [hs]
          rw [hrun]
          constructor
          · intro r hr
            exact hstep.1 r (by simpa using hr)
          · intro c' h
            simp at h
      | ok cmid =>
          have hmid : cmid.usersAttr = c.usersAttr := hstep.2 cmid rfl
          have htr : truthy cmid.usersAttr = true := by rw [hmid]; exact hu
          obtain ⟨ih1, ih2⟩ := ih cmid htr
          rcases hr2 : runOps net cmid ops with ⟨log2, r2⟩
          rw [hr2] at ih1 ih2
          have hrun : runOps net c (op :: ops) = (log ++ log2, r2) := by
            show (match step net c op with
                  | (log, Except.error e) => (log, Except.error e)
                  | (log, Except.ok c2) =>
                      match runOps net c2 ops with
                      | (log2, r2) => (log ++ log2, r2)) = (log ++ log2, r2)
            rw [hs]
            show (match runOps net cmid ops with
                  | (log2, r2) => (log ++ log2, r2)) = (log ++ log2, r2)
            rw [hr2]
          rw [hrun]
          constructor
          · intro r hr
            simp at hr
            rcases hr with hr | hr
            · exact hstep.1 r hr
            · exact ih1 r (by simpa using hr)
          · intro c' h
            simp at h
            rw [ih2 c' (by simpa using h), hmid]

/-- Claim C6 (confirmed): `reloadChannels` clears only the channel cache
(token, verify flag and user cache are untouched), so the next `channels()`
access issues a fresh `channels.list` request; and no sequence of public
operations run on a client whose user cache is populated (truthy) ever
issues a `users.list` request or changes the user cache — there is no user
reload. -/
theorem reload_channels_only_channels (net : Request → Json) (c : SlackAPI)
    (ops : List Op) (hu : truthy c.usersAttr = true) :
    (reload_channels c).chansAttr = .null ∧
    (reload_channels c).usersAttr = c.usersAttr ∧
    (reload_channels c).token = c.token ∧
    (reload_channels c).verify = c.verify ∧
    (channels net (reload_channels c)).1 = [bareGetReq c.token "channels.list"] ∧
    (∀ r ∈ (runOps net c ops).1, r.url ≠ apiUrl "users.list") ∧
    (∀ c', (runOps net c ops).2 = .ok c' → c'.usersAttr = c.usersAttr) := by
  obtain ⟨h1, h2⟩ := runOps_users_invariant net ops c hu
  exact ⟨rfl, rfl, rfl, rfl, channels_fst_fetch net (reload_channels c) rfl,
         h1, h2⟩

/-- Witness for C6: a populated user cache, exercised by a sequence touching
every channel-side operation, never refetches users. -/
theorem reload_channels_only_channels_witness :
    truthy (Json.arr [userU1]) = true ∧
    (reload_channels ⟨"t", true, .arr [chanGeneral], .arr [userU1]⟩).usersAttr
      = .arr [userU1] ∧
    (∀ r ∈ (runOps netSample ⟨"t", true, .arr [chanGeneral], .arr [userU1]⟩
        [Op.reloadChannelsOp, Op.channelsOp, Op.usersOp,
         Op.userFromIdOp "U1"]).1,
      r.url ≠ apiUrl "users.list") := by
  have h := reload_channels_only_channels netSample
    ⟨"t", true, .arr [chanGeneral], .arr [userU1]⟩
    [Op.reloadChannelsOp, Op.channelsOp, Op.usersOp, Op.userFromIdOp "U1"] rfl
  exact ⟨rfl, h.2.1, h.2.2.2.2.2.1⟩

/-! ### Claim C7 -/

/-- The head of a successful comprehension result is the first element of
the scanned list whose field compares string-equal to the key. -/
theorem fieldFilter_ok_head (field key : String) (elems l : List Json)
    (h : fieldFilter field key elems = .ok l) :
    l.head? = elems.find? (fieldIs field key) := by
  induction elems generalizing l with
  | nil =>
      simp [fieldFilter] at h
      subst h
      simp
  | cons x xs ih =>
      unfold fieldFilter at h
      rcases hp : pyIndex x field with e | v
      · rw [hp] at h; simp at h
      · rw [hp] at h
        rcases hf : fieldFilter field key xs with e | rest
        · rw [hf] at h; simp at h
        · rw [hf] at h
          simp at h
          subst h
          by_cases hs : strEq v key = true
          · simp [hs, List.find?, fieldIs, hp]
          · simp [hs, List.find?, fieldIs, hp]
            exact ih rest hf

/-- The comprehension succeeds whenever every element has the field. -/
theorem fieldFilter_isOk (field key : String) (elems : List Json)
    (h : ∀ x ∈ elems, ∃ s, pyIndex x field = .ok s) :
    ∃ l, fieldFilter field key elems = .ok l := by
  induction elems with
  | nil => exact ⟨[], rfl⟩
  | cons x xs ih =>
      obtain ⟨s, hs⟩ := h x (by simp)
      obtain ⟨l, hl⟩ := ih (fun y hy => h y (by simp [hy]))
      refine ⟨if strEq s key = true then x :: l else l, ?_⟩
      unfold fieldFilter
      rw [hs, hl]

/-- The comprehension-plus-head pattern yields the first matching element,
and the empty result exactly when no element matches. -/
theorem first_match_spec (field key : String) (elems : List Json)
    (hflds : ∀ x ∈ elems, ∃ s, pyIndex x field = .ok s) :
    (∀ x, List.find? (fieldIs field key) elems = some x →
       ∃ rest, fieldFilter field key elems = .ok (x :: rest)) ∧
    (List.find? (fieldIs field key) elems = none →
       fieldFilter field key elems = .ok []) := by
  obtain ⟨l, hl⟩ := fieldFilter_isOk field key elems hflds
  have hh := fieldFilter_ok_head field key elems l hl
  constructor
  · intro x hx
    rw [hx] at hh
    cases l with
    | nil => simp at hh
    | cons a as =>
        simp at hh
        subst hh
        exact ⟨as, hl⟩
  · intro hn
    rw [hn] at hh
    cases l with
    | nil => exact hl
    | cons a as => simp at hh

/-- Result of the channel-by-name lookup given the post-access collection. -/
theorem channel_from_name_snd (net : Request → Json) (c : SlackAPI)
    (name : String) (chans : List Json) (c' : SlackAPI)
    (hch : (channels net c).2 = .ok (.arr chans, c')) :
    (channel_from_name net c name).2
      = match fieldFilter "name" name chans with
        | .error e => .error e
        | .ok [] => .error (.unknownChannelName name)
        | .ok (x :: _) => .ok (x, c') := by
  unfold channel_from_name
  rcases hc : channels net c with ⟨log, res⟩
  rw [hc] at hch
  cases res with
  | error e => simp at hch
  | ok pr =>
      obtain ⟨chs, c2⟩ := pr
      simp at hch
      obtain ⟨h1, h2⟩ := hch
      subst h1
      subst h2
      rcases hf : fieldFilter "name" name chans with e | l
      · simp [hf]
      · cases l <;> simp [hf]

/-- Result of the user-by-id lookup given the post-access collection. -/
theorem user_from_id_snd (net : Request → Json) (c : SlackAPI)
    (user_id : String) (usrs : List Json) (c' : SlackAPI)
    (hus : (users net c).2 = .ok (.arr usrs, c')) :
    (user_from_id net c user_id).2
      = match fieldFilter "id" user_id usrs with
        | .error e => .error e
        | .ok [] => .error (.unknownUserId user_id)
        | .ok (x :: _) => .ok (x, c') := by
  unfold user_from_id
  rcases hc : users net c with ⟨log, res⟩
  rw [hc] at hus
  cases res with
  | error e => simp at hus
  | ok pr =>
      obtain ⟨chs, c2⟩ := pr
      simp at hus
      obtain ⟨h1, h2⟩ := hus
      subst h1
      subst h2
      rcases hf : fieldFilter "id" user_id usrs with e | l
      · simp [hf]
      · cases l <;> simp [hf]

/-- Result of the channel-by-id lookup given the post-access collection. -/
theorem channel_from_id_snd (net : Request → Json) (c : SlackAPI)
    (channel_id : String) (chans : List Json) (c' : SlackAPI)
    (hch : (channels net c).2 = .ok (.arr chans, c')) :
    (channel_from_id net c channel_id).2
      = match fieldFilter "id" channel_id chans with
        | .error e => .error e
        | .ok [] => .error (.unknownChannelId channel_id)
        | .ok (x :: _) => .ok (x, c') := by
  unfold channel_from_id
  rcases hc : channels net c with ⟨log, res⟩
  rw [hc] at hch
  cases res with
  | error e => simp at hch
  | ok pr =>
      obtain ⟨chs, c2⟩ := pr
      simp at hch
      obtain ⟨h1, h2⟩ := hch
      subst h1
      subst h2
      rcases hf : fieldFilter "id" channel_id chans with e | l
      · simp [hf]
      · cases l <;> simp [hf]

/-- The user-by-id lookup issues exactly the user-property requests. -/
theorem user_from_id_fst (net : Request → Json) (c : SlackAPI)
    (user_id : String) :
    (user_from_id net c user_id).1 = (users net c).1 := by
  unfold user_from_id
  rcases h : users net c with ⟨log, res⟩
  cases res with
  | error e => simp
  | ok pr =>
      obtain ⟨us, c'⟩ := pr
      cases us with
      | arr elems =>
          rcases hf : fieldFilter "id" user_id elems with e | l
          · simp [hf]
          · cases l <;> simp [hf]
      | null => simp
      | bool b => simp
      | num n => simp
      | str s => simp
      | obj kvs => simp

/-- Claim C7 (confirmed): each lookup helper scans the corresponding cached
collection (its requests are exactly those of the property access, i.e. a
fetch happens exactly when the cache was empty), returns the first element
whose `name`/`id` field is exactly string-equal to the key, and raises the
corresponding `NotFoundError` carrying the key when no element matches —
provided each scanned element has the field (a missing field is a
`KeyError` instead). -/
theorem lookup_helpers_spec (net : Request → Json)
    (ca cb cc : SlackAPI) (name uid cid : String)
    (chans usrs chans2 : List Json) (ca' cb' cc' : SlackAPI)
    (hch : (channels net ca).2 = .ok (.arr chans, ca'))
    (hchf : ∀ x ∈ chans, ∃ s, pyIndex x "name" = .ok s)
    (hus : (users net cb).2 = .ok (.arr usrs, cb'))
    (husf : ∀ x ∈ usrs, ∃ s, pyIndex x "id" = .ok s)
    (hch2 : (channels net cc).2 = .ok (.arr chans2, cc'))
    (hchf2 : ∀ x ∈ chans2, ∃ s, pyIndex x "id" = .ok s) :
    ((channel_from_name net ca name).1 = (channels net ca).1 ∧
     (∀ x, List.find? (fieldIs "name" name) chans = some x →
        (channel_from_name net ca name).2 = .ok (x, ca')) ∧
     (List.find? (fieldIs "name" name) chans = none →
        (channel_from_name net ca name).2
          = .error (.unknownChannelName name))) ∧
    ((user_from_id net cb uid).1 = (users net cb).1 ∧
     (∀ x, List.find? (fieldIs "id" uid) usrs = some x →
        (user_from_id net cb uid).2 = .ok (x, cb')) ∧
     (List.find? (fieldIs "id" uid) usrs = none →
        (user_from_id net cb uid).2 = .error (.unknownUserId uid))) ∧
    ((channel_from_id net cc cid).1 = (channels net cc).1 ∧
     (∀ x, List.find? (fieldIs "id" cid) chans2 = some x →
        (channel_from_id net cc cid).2 = .ok (x, cc')) ∧
     (List.find? (fieldIs "id" cid) chans2 = none →
        (channel_from_id net cc cid).2
          = .error (.unknownChannelId cid))) := by
  obtain ⟨hsome1, hnone1⟩ := first_match_spec "name" name chans hchf
  obtain ⟨hsome2, hnone2⟩ := first_match_spec "id" uid usrs husf
  obtain ⟨hsome3, hnone3⟩ := first_match_spec "id" cid chans2 hchf2
  refine ⟨⟨channel_from_name_fst net ca name, ?_, ?_⟩,
          ⟨user_from_id_fst net cb uid, ?_, ?_⟩,
          ⟨channel_from_id_fst net cc cid, ?_, ?_⟩⟩
  · intro x hx
    obtain ⟨rest, hrest⟩ := hsome1 x hx
    rw [channel_from_name_snd net ca name chans ca' hch, hrest]
  · intro hn
    rw [channel_from_name_snd net ca name chans ca' hch, hnone1 hn]
  · intro x hx
    obtain ⟨rest, hrest⟩ := hsome2 x hx
    rw [user_from_id_snd net cb uid usrs cb' hus, hrest]
  · intro hn
    rw [user_from_id_snd net cb uid usrs cb' hus, hnone2 hn]
  · intro x hx
    obtain ⟨rest, hrest⟩ := hsome3 x hx
    rw [channel_from_id_snd net cc cid chans2 cc' hch2, hrest]
  · intro hn
    rw [channel_from_id_snd net cc cid chans2 cc' hch2, hnone3 hn]

/-- A second channel mapping used by the lookup witness. -/
def chanRandom : Json := .obj [("id", .str "C2"), ("name", .str "random")]

/-- Every sample channel has a `name` field. -/
theorem sampleChansHaveName :
    ∀ x ∈ [chanGeneral, chanRandom], ∃ s, pyIndex x "name" = Except.ok s := by
  intro x hx
  simp [chanGeneral, chanRandom] at hx
  rcases hx with h | h <;> subst h
  · exact ⟨.str "general", rfl⟩
  · exact ⟨.str "random", rfl⟩

/-- Every sample channel has an `id` field. -/
theorem sampleChansHaveId :
    ∀ x ∈ [chanGeneral, chanRandom], ∃ s, pyIndex x "id" = Except.ok s := by
  intro x hx
  simp [chanGeneral, chanRandom] at hx
  rcases hx with h | h <;> subst h
  · exact ⟨.str "C1", rfl⟩
  · exact ⟨.str "C2", rfl⟩

/-- Every sample user has an `id` field. -/
theorem sampleUsersHaveId :
    ∀ x ∈ [userU1], ∃ s, pyIndex x "id" = Except.ok s := by
  intro x hx
  simp [userU1] at hx
  subst hx
  exact ⟨.str "U1", rfl⟩

/-- A client whose caches are already populated with two channels and one
user. -/
def clientPop : SlackAPI :=
  ⟨"t", true, .arr [chanGeneral, chanRandom], .arr [userU1]⟩

/-- Witness for C7: a hit returns the first matching element, a miss raises
the identifying error. -/
theorem lookup_helpers_spec_witness :
    (channel_from_name netSample clientPop "general").2
      = .ok (chanGeneral, clientPop) ∧
    (channel_from_name netSample clientPop "missing").2
      = .error (.unknownChannelName "missing") ∧
    (user_from_id netSample clientPop "U1").2 = .ok (userU1, clientPop) ∧
    (channel_from_id netSample clientPop "C2").2
      = .ok (chanRandom, clientPop) := by
  have h1 := lookup_helpers_spec netSample clientPop clientPop clientPop
    "general" "U1" "C2" [chanGeneral, chanRandom] [userU1]
    [chanGeneral, chanRandom] clientPop clientPop clientPop
    rfl sampleChansHaveName rfl sampleUsersHaveId rfl sampleChansHaveId
  have h2 := lookup_helpers_spec netSample clientPop clientPop clientPop
    "missing" "U1" "C2" [chanGeneral, chanRandom] [userU1]
    [chanGeneral, chanRandom] clientPop clientPop clientPop
    rfl sampleChansHaveName rfl sampleUsersHaveId rfl sampleChansHaveId
  exact ⟨h1.1.2.1 chanGeneral rfl, h2.1.2.2 rfl,
         h1.2.1.2.1 userU1 rfl, h1.2.2.2.1 chanRandom rfl⟩

/-! ### Claim C8 -/

/-- Test for the constructor-level authentication failure. -/
def isAuthenticationError : Except Err SlackAPI → Bool
  | .error (.authenticationError _) => true
  | _ => false

/-- The exceptions a dispatch can raise: the response-verification error, or
a subscription error on `response['ok']`. -/
theorem api_call_error_shape {net : Request → Json} {verify : Bool}
    {method rm : String} {kw : RequestKwargs} {e : Err}
    (h : (api_call net verify method rm kw).2 = .error e) :
    (∃ u r2, e = .apiError u r2) ∨ (∃ k, e = .keyError k) ∨ e = .typeError := by
  unfold api_call at h
  by_cases hv : verify = true
  · rcases hp : pyIndex (net ⟨apiUrl method, rm, kw⟩) "ok" with e2 | v
    · simp [hv, hp] at h
      rcases pyIndex_error_shape hp with h2 | h2
      · exact .inr (.inl ⟨"ok", by rw [← h]; exact h2⟩)
      · exact .inr (.inr (by rw [← h]; exact h2))
    · by_cases ht : truthy v = true
      · simp [hv, hp, ht] at h
      · simp [hv, hp, ht] at h
        exact .inl ⟨_, _, h.symm⟩
  · simp [hv] at h

/-- The channel property never raises the authentication error. -/
theorem channels_no_auth_error (net : Request → Json) (c : SlackAPI)
    (r : Json) : (channels net c).2 ≠ .error (.authenticationError r) := by
  unfold channels
  by_cases hc : truthy c.chansAttr = true
  · simp [hc]
  · rw [if_neg hc]
    rcases h : call_api net c.token c.verify "channels.list" none with ⟨log, res⟩
    cases res with
    | error e =>
        have h2 : (call_api net c.token c.verify "channels.list" none).2
            = .error e := by rw [h]
        rcases api_call_error_shape h2 with ⟨u, r2, he⟩ | ⟨k, he⟩ | he <;>
          subst he <;> simp
    | ok resp =>
        rcases hp : pyIndex resp "channels" with e | v
        · rcases pyIndex_error_shape hp with he | he <;> subst he <;> simp [hp]
        · simp [hp]

/-- The user property never raises the authentication error. -/
theorem users_no_auth_error (net : Request → Json) (c : SlackAPI)
    (r : Json) : (users net c).2 ≠ .error (.authenticationError r) := by
  unfold users
  by_cases hc : truthy c.usersAttr = true
  · simp [hc]
  · rw [if_neg hc]
    rcases h : call_api net c.token c.verify "users.list" none with ⟨log, res⟩
    cases res with
    | error e =>
        have h2 : (call_api net c.token c.verify "users.list" none).2
            = .error e := by rw [h]
        rcases api_call_error_shape h2 with ⟨u, r2, he⟩ | ⟨k, he⟩ | he <;>
          subst he <;> simp
    | ok resp =>
        rcases hp : pyIndex resp "members" with e | v
        · rcases pyIndex_error_shape hp with he | he <;> subst he <;> simp [hp]
        · simp [hp]

/-- The auth-test method never raises the authentication error itself. -/
theorem auth_test_no_auth_error (net : Request → Json) (c : SlackAPI)
    (r : Json) : (auth_test net c).2 ≠ .error (.authenticationError r) := by
  unfold auth_test
  rcases h : call_api net c.token c.verify "auth.test" none with ⟨log, res⟩
  cases res with
  | error e =>
      have h2 : (call_api net c.token c.verify "auth.test" none).2
          = .error e := by rw [h]
      rcases api_call_error_shape h2 with ⟨u, r2, he⟩ | ⟨k, he⟩ | he <;>
        subst he <;> simp
  | ok r1 =>
      by_cases ht : truthy r1 = true
      · rcases hp : post_api net c.token c.verify "auth.test" none with ⟨log2, res2⟩
        cases res2 with
        | error e =>
            have h2 : (post_api net c.token c.verify "auth.test" none).2
                = .error e := by rw [hp]
            rcases api_call_error_shape h2 with ⟨u, r2, he⟩ | ⟨k, he⟩ | he <;>
              subst he <;> simp [ht, hp]
        | ok r2 => simp [ht, hp]
      · simp [ht]

/-- A returned auth-test response passed verification when it is on. -/
theorem auth_test_ok_verified {net : Request → Json} {c : SlackAPI}
    {resp : Json} (hv : c.verify = true)
    (h : (auth_test net c).2 = .ok resp) :
    ∃ v, pyIndex resp "ok" = .ok v ∧ truthy v = true := by
  unfold auth_test at h
  rcases hg : call_api net c.token c.verify "auth.test" none with ⟨log, res⟩
  rw [hg] at h
  cases res with
  | error e => simp at h
  | ok r1 =>
      have hg2 : (call_api net c.token true "auth.test" none).2 = .ok r1 := by
        rw [← hv, hg]
      have hver := api_call_ok_verified hg2
      by_cases ht : truthy r1 = true
      · rcases hp : post_api net c.token c.verify "auth.test" none with ⟨log2, res2⟩
        simp [ht, hp] at h
        cases res2 with
        | error e => simp at h
        | ok r2 =>
            simp at h
            subst h
            have hp2 : (post_api net c.token true "auth.test" none).2
                = .ok r2 := by rw [← hv, hp]
            exact api_call_ok_verified hp2
      · simp [ht] at h
        subst h
        exact hver

/-- With verification on, the constructor's auth block never reaches its
authentication-failure branch. -/
theorem init_auth_check_no_auth_error (net : Request → Json) (c0 : SlackAPI)
    (hv : c0.verify = true) (r : Json) :
    (init_auth_check net c0).2 ≠ .error (.authenticationError r) := by
  unfold init_auth_check
  rcases h : auth_test net c0 with ⟨log, res⟩
  cases res with
  | error e =>
      have h2 : (auth_test net c0).2 = .error e := by rw [h]
      intro hc
      simp at hc
      subst hc
      exact auth_test_no_auth_error net c0 r h2
  | ok resp =>
      obtain ⟨v, hpv, htv⟩ := auth_test_ok_verified hv (by rw [h])
      simp [hpv, htv]

/-- The eager-population block never raises the authentication error. -/
theorem init_eager_no_auth_error (net : Request → Json) (c0 : SlackAPI)
    (r : Json) : (init_eager net c0).2 ≠ .error (.authenticationError r) := by
  unfold init_eager
  rcases hch : channels net c0 with ⟨log2, res2⟩
  cases res2 with
  | error e =>
      intro hc
      simp at hc
      subst hc
      exact channels_no_auth_error net c0 r (by rw [hch])
  | ok pr =>
      obtain ⟨x, c1⟩ := pr
      rcases hus : users net c1 with ⟨log3, res3⟩
      cases res3 with
      | error e =>
          intro hc
          simp [hus] at hc
          subst hc
          exact users_no_auth_error net c1 r (by rw [hus])
      | ok pr2 =>
          obtain ⟨y, c2⟩ := pr2
          simp [hus]

/-- Token resolution fails only with the configuration error. -/
theorem resolve_token_error_shape {token envToken : Option String} {e : Err}
    (h : resolve_token token envToken = .error e) :
    e = .configurationError := by
  unfold resolve_token at h
  cases token with
  | none =>
      cases envToken with
      | some s => simp at h
      | none => simp at h; exact h.symm
  | some t =>
      by_cases ht : t ≠ ""
      · simp [ht] at h
      · cases envToken with
        | some s => simp [ht] at h
        | none => simp [ht] at h; exact h.symm

/-- Claim C8 (confirmed): with response verification enabled (its default),
the constructor's `AuthenticationError` branch is unreachable — a false
success flag already raises `APIError` inside the dispatch layer — so
construction can produce an `AuthenticationError` only when verification is
disabled. -/
theorem init_authenticationError_needs_verify_off (net : Request → Json)
    (token envToken : Option String) (aFlag verify lzFlag : Bool) :
    (verify = true →
      isAuthenticationError
        (SlackAPI.init net token envToken aFlag verify lzFlag).2 = false) ∧
    (isAuthenticationError
        (SlackAPI.init net token envToken aFlag verify lzFlag).2 = true →
      verify = false) := by
  have hmain : verify = true →
      isAuthenticationError
        (SlackAPI.init net token envToken aFlag verify lzFlag).2 = false := by
    intro hv
    subst hv
    unfold SlackAPI.init
    cases htok : resolve_token token envToken with
    | error e =>
        have he := resolve_token_error_shape htok
        subst he
        simp [isAuthenticationError]
    | ok tok =>
        simp only [htok]
        rcases ha : (if aFlag = true
            then init_auth_check net ⟨tok, true, .arr [], .arr []⟩
            else ([], .ok ())) with ⟨log, res⟩
        cases res with
        | error e =>
            have he : ∀ r, e ≠ .authenticationError r := by
              intro r hc
              subst hc
              by_cases haf : aFlag = true
              · rw [if_pos haf] at ha
                exact init_auth_check_no_auth_error net
                  ⟨tok, true, .arr [], .arr []⟩ rfl r (by rw [ha])
              · rw [if_neg haf] at ha
                cases ha
            simp only [ha]
            cases e <;> simp [isAuthenticationError]
            exact absurd rfl (he _)
        | ok u =>
            cases u
            simp only [ha]
            by_cases hlz : lzFlag = true
            · simp [hlz, isAuthenticationError]
            · have hlzf : lzFlag = false := by
                cases lzFlag
                · rfl
                · exact absurd rfl hlz
              subst hlzf
              rcases he : init_eager net ⟨tok, true, .arr [], .arr []⟩
                with ⟨log2, res2⟩
              cases res2 with
              | error e2 =>
                  have hne : ∀ r, e2 ≠ .authenticationError r := by
                    intro r hc
                    subst hc
                    exact init_eager_no_auth_error net
                      ⟨tok, true, .arr [], .arr []⟩ r (by rw [he])
                  simp only [he]
                  cases e2 <;> simp [isAuthenticationError]
                  exact absurd rfl (hne _)
              | ok c2 => simp [he, isAuthenticationError]
  refine ⟨hmain, ?_⟩
  intro htrue
  cases hverify : verify
  · rfl
  · rw [hmain hverify] at htrue
    cases htrue

/-- Witness for C8: a failing auth response under verification yields the
dispatch error, not the authentication error. -/
theorem init_authenticationError_needs_verify_off_witness :
    isAuthenticationError
      (SlackAPI.init netOkFalse (some "t") none true true false).2 = false :=
  (init_authenticationError_needs_verify_off netOkFalse (some "t") none
    true true false).1 rfl

end Djangobot
